import Mathlib

/-!
Verification of the token-table data-synchronization engine.

This file shallowly embeds the core logic of the repository in Lean:
the entity normalizer (`src/utils/tokenUtils.ts`), the combined-filter
engine (`src/utils/combinedFilters.ts`), and the synchronization engine
of `src/hooks/useTokenData.ts` (snapshot merging, realtime tick /
pair-stats / scanner-pairs patches, the load-more guard, and the
subscription bookkeeping).

Modelling conventions:
* JavaScript numbers are modelled as rationals (`ℚ`); every numeric
  string field of a raw record is modelled as `Option ℚ`, where `none`
  stands for `null` / `undefined` / the empty string / an unparsable
  string (all of which `safeParseFloat` maps to the fallback `0`), and
  `some q` stands for a string parsing to the value `q`.
* `Date` values are milliseconds since the epoch, as a rational.
* Optional string fields are `Option String`; JavaScript string
  truthiness is `none`/`""` ↦ false.
* The synthesized `priceHistory` field of a normalized token is omitted:
  it is produced with `Math.random()` and no claim depends on it.
-/

namespace Dexcelerate

/-- The four supported chains of `chainIdToName` (`SupportedChainName`). -/
inductive Chain
  | ETH | BSC | BASE | SOL
deriving DecidableEq, Repr

/-- Ranking fields actually used by the engine (`SerdeRankBy` values
`volume`, `age`, `mcap`; the remaining wire values are never produced
by the embedded code). -/
inductive RankBy
  | volume | age | mcap
deriving DecidableEq, Repr

/-- Sort order (`OrderBy`). -/
inductive OrderBy
  | asc | desc
deriving DecidableEq, Repr

/-- Audit record of a token (`TokenData.audit`). -/
structure Audit where
  mintable : Bool
  freezable : Bool
  honeypot : Bool
  contractVerified : Bool
deriving DecidableEq, Repr

/-- Percentage price change per timeframe (`TokenData.priceChangePcs`). -/
structure PriceChanges where
  pc5M : ℚ
  pc1H : ℚ
  pc6H : ℚ
  pc24H : ℚ
deriving DecidableEq, Repr

/-- Buy/sell transaction counts (`TokenData.transactions`). -/
structure Transactions where
  buys : Nat
  sells : Nat
deriving DecidableEq, Repr

/-- Liquidity value and percent change (`TokenData.liquidity`). -/
structure LiquidityInfo where
  current : ℚ
  changePc : ℚ
deriving DecidableEq, Repr

/-- Optional social links (`TokenData.socialLinks`). -/
structure SocialLinks where
  discord : Option String
  telegram : Option String
  twitter : Option String
  website : Option String
deriving DecidableEq, Repr

/-- The canonical entity shape (`TokenData` in `test-task-types.ts`),
minus the random `priceHistory` field (see file header). -/
structure TokenData where
  id : String
  tokenName : String
  tokenSymbol : String
  tokenAddress : String
  pairAddress : String
  chain : Chain
  exchange : String
  priceUsd : ℚ
  volumeUsd : ℚ
  mcap : ℚ
  totalSupply : ℚ
  priceChangePcs : PriceChanges
  transactions : Transactions
  audit : Audit
  tokenCreatedTimestamp : ℚ
  liquidity : LiquidityInfo
  migrationPc : Option ℚ
  socialLinks : SocialLinks
  dexPaid : Option Bool
  lastUpdated : ℚ
deriving DecidableEq, Repr

/-- The raw snapshot record (`ScannerResult`), restricted to the fields
the embedded code reads.  Numeric strings are `Option ℚ` (see header). -/
structure ScannerResult where
  age : ℚ
  buys : Option Nat
  sells : Option Nat
  chainId : Nat
  contractVerified : Bool
  currentMcap : Option ℚ
  initialMcap : Option ℚ
  pairMcapUsd : Option ℚ
  pairMcapUsdInitial : Option ℚ
  price : Option ℚ
  volume : Option ℚ
  diff5M : Option ℚ
  diff1H : Option ℚ
  diff6H : Option ℚ
  diff24H : Option ℚ
  liquidity : Option ℚ
  percentChangeInLiquidity : Option ℚ
  token1TotalSupplyFormatted : Option ℚ
  honeyPot : Option Bool
  isMintAuthDisabled : Bool
  isFreezeAuthDisabled : Bool
  migrationProgress : Option ℚ
  discordLink : Option String
  telegramLink : Option String
  twitterLink : Option String
  webLink : Option String
  dexPaid : Bool
  pairAddress : String
  token1Address : String
  token1Name : Option String
  token1Symbol : Option String
  virtualRouterType : Option String
deriving DecidableEq, Repr

/-- `safeParseFloat` of `formatters.ts`: null/undefined/empty/NaN fall
back to `0`; a parsable value is returned as-is. -/
def safeParseFloat (v : Option ℚ) : ℚ :=
  v.getD 0

/-- JavaScript truthiness of an optional string (`none` and `""` are
falsy, everything else truthy). -/
def strTruthy : Option String → Bool
  | none => false
  | some s => !(s == "")

/-- Models the JavaScript pattern `x || d` on an optional string. -/
def jsOrStr (o : Option String) (d : String) : String :=
  match o with
  | some s => if s == "" then d else s
  | none => d

/-- Models the JavaScript pattern `x || undefined` on an optional string. -/
def jsOrUndef (o : Option String) : Option String :=
  if strTruthy o then o else none

/-- `chainIdToName` of `tokenUtils.ts`: fixed lookup, unknown ids map
to `ETH`. -/
def chainIdToName (chainId : Nat) : Chain :=
  if chainId = 1 then .ETH
  else if chainId = 56 then .BSC
  else if chainId = 8453 then .BASE
  else if chainId = 900 then .SOL
  else .ETH

/-- `calculateMarketCap` of `tokenUtils.ts`: first strictly positive
value in priority order, then the `totalSupply * price` fallback. -/
def calculateMarketCap (result : ScannerResult) : ℚ :=
  if 0 < safeParseFloat result.currentMcap then safeParseFloat result.currentMcap
  else if 0 < safeParseFloat result.initialMcap then safeParseFloat result.initialMcap
  else if 0 < safeParseFloat result.pairMcapUsd then safeParseFloat result.pairMcapUsd
  else if 0 < safeParseFloat result.pairMcapUsdInitial then safeParseFloat result.pairMcapUsdInitial
  else safeParseFloat result.token1TotalSupplyFormatted * safeParseFloat result.price

/-- `scannerResultToToken` of `tokenUtils.ts`; `now` is the value of
`new Date()` at conversion time (milliseconds).  The random
`priceHistory` synthesis is omitted (see file header). -/
def scannerResultToToken (now : ℚ) (result : ScannerResult) : TokenData :=
  { id := result.pairAddress
    tokenName := jsOrStr result.token1Name "Unknown Token"
    tokenSymbol := jsOrStr result.token1Symbol "UNK"
    tokenAddress := result.token1Address
    pairAddress := result.pairAddress
    chain := chainIdToName result.chainId
    exchange := jsOrStr result.virtualRouterType "Router"
    priceUsd := safeParseFloat result.price
    volumeUsd := safeParseFloat result.volume
    mcap := calculateMarketCap result
    totalSupply := safeParseFloat result.token1TotalSupplyFormatted
    priceChangePcs :=
      { pc5M := safeParseFloat result.diff5M
        pc1H := safeParseFloat result.diff1H
        pc6H := safeParseFloat result.diff6H
        pc24H := safeParseFloat result.diff24H }
    transactions := { buys := result.buys.getD 0, sells := result.sells.getD 0 }
    audit :=
      { mintable := !result.isMintAuthDisabled
        freezable := !result.isFreezeAuthDisabled
        honeypot := result.honeyPot.getD false
        contractVerified := result.contractVerified }
    tokenCreatedTimestamp := result.age
    liquidity :=
      { current := safeParseFloat result.liquidity
        changePc := safeParseFloat result.percentChangeInLiquidity }
    migrationPc := result.migrationProgress
    socialLinks :=
      { discord := jsOrUndef result.discordLink
        telegram := jsOrUndef result.telegramLink
        twitter := jsOrUndef result.twitterLink
        website := jsOrUndef result.webLink }
    dexPaid := some result.dexPaid
    lastUpdated := now }

/-- A raw record with every optional field absent, used to build
concrete witnesses. -/
def blankRecord : ScannerResult :=
  { age := 0, buys := none, sells := none, chainId := 1, contractVerified := false
    currentMcap := none, initialMcap := none, pairMcapUsd := none, pairMcapUsdInitial := none
    price := none, volume := none, diff5M := none, diff1H := none, diff6H := none
    diff24H := none, liquidity := none, percentChangeInLiquidity := none
    token1TotalSupplyFormatted := none, honeyPot := none, isMintAuthDisabled := false
    isFreezeAuthDisabled := false, migrationProgress := none, discordLink := none
    telegramLink := none, twitterLink := none, webLink := none, dexPaid := false
    pairAddress := "", token1Address := "", token1Name := none, token1Symbol := none
    virtualRouterType := none }

/-- The record of the spec's market-cap scenario: current mcap `0`,
initial mcap `500000`, the later fields also set. -/
def mcapScenarioRecord : ScannerResult :=
  { blankRecord with
      currentMcap := some 0
      initialMcap := some 500000
      pairMcapUsd := some 300000
      pairMcapUsdInitial := some 200000
      token1TotalSupplyFormatted := some 1000000
      price := some 2 }

/-- C8: market-cap derivation returns the first strictly positive value
in the order current / initial / pair / pair-initial and otherwise the
`totalSupply * price` fallback; with current=0, initial=500000 and the
later fields also set, the result is 500000. -/
theorem calculateMarketCap_priority (r : ScannerResult) :
    (0 < safeParseFloat r.currentMcap →
      calculateMarketCap r = safeParseFloat r.currentMcap)
    ∧ (safeParseFloat r.currentMcap ≤ 0 → 0 < safeParseFloat r.initialMcap →
      calculateMarketCap r = safeParseFloat r.initialMcap)
    ∧ (safeParseFloat r.currentMcap ≤ 0 → safeParseFloat r.initialMcap ≤ 0 →
        0 < safeParseFloat r.pairMcapUsd →
      calculateMarketCap r = safeParseFloat r.pairMcapUsd)
    ∧ (safeParseFloat r.currentMcap ≤ 0 → safeParseFloat r.initialMcap ≤ 0 →
        safeParseFloat r.pairMcapUsd ≤ 0 → 0 < safeParseFloat r.pairMcapUsdInitial →
      calculateMarketCap r = safeParseFloat r.pairMcapUsdInitial)
    ∧ (safeParseFloat r.currentMcap ≤ 0 → safeParseFloat r.initialMcap ≤ 0 →
        safeParseFloat r.pairMcapUsd ≤ 0 → safeParseFloat r.pairMcapUsdInitial ≤ 0 →
      calculateMarketCap r =
        safeParseFloat r.token1TotalSupplyFormatted * safeParseFloat r.price)
    ∧ calculateMarketCap mcapScenarioRecord = 500000 := by
  refine ⟨?_, ?_, ?_, ?_, ?_, by decide⟩
  · intro h1
    rw [calculateMarketCap, if_pos h1]
  · intro h1 h2
    rw [calculateMarketCap, if_neg (not_lt.mpr h1), if_pos h2]
  · intro h1 h2 h3
    rw [calculateMarketCap, if_neg (not_lt.mpr h1), if_neg (not_lt.mpr h2), if_pos h3]
  · intro h1 h2 h3 h4
    rw [calculateMarketCap, if_neg (not_lt.mpr h1), if_neg (not_lt.mpr h2),
      if_neg (not_lt.mpr h3), if_pos h4]
  · intro h1 h2 h3 h4
    rw [calculateMarketCap, if_neg (not_lt.mpr h1), if_neg (not_lt.mpr h2),
      if_neg (not_lt.mpr h3), if_neg (not_lt.mpr h4)]

/-- Witness for C8: the priority chain evaluated at concrete records. -/
theorem calculateMarketCap_priority_witness :
    calculateMarketCap { blankRecord with currentMcap := some 7 } = 7 ∧
    calculateMarketCap mcapScenarioRecord = 500000 := by
  constructor
  · exact (calculateMarketCap_priority { blankRecord with currentMcap := some 7 }).1
      (by decide)
  · exact (calculateMarketCap_priority blankRecord).2.2.2.2.2

/-! ### Combined filter engine (`combinedFilters.ts`) -/

/-- Combined filter preset names (`CombinedFilterType` minus `null`;
the `null` case is the `Option` wrapper at use sites). -/
inductive CombinedFilterName
  | moonshot | blueChip | scalp | hodl | custom
deriving DecidableEq, Repr

/-- Request parameters (`GetScannerResultParams`), restricted to the
fields the embedded code reads or writes; `none` models an absent key.
(`chain?: null | SupportedChainName` is collapsed to `Option Chain`:
absent and `null` behave identically in the embedded code.) -/
structure GetScannerResultParams where
  chain : Option Chain
  orderBy : Option OrderBy
  rankBy : Option RankBy
  page : Option Nat
  isNotHP : Option Bool
  isVerified : Option Bool
  minVol24H : Option ℚ
  maxAge : Option ℚ
  minLiq : Option ℚ
deriving DecidableEq, Repr

/-- A parameter object with every key absent. -/
def emptyParams : GetScannerResultParams :=
  { chain := none, orderBy := none, rankBy := none, page := none, isNotHP := none
    isVerified := none, minVol24H := none, maxAge := none, minLiq := none }

/-- Additional in-memory predicate thresholds of a preset
(`CombinedFilterConfig.additionalChecks`). -/
structure AdditionalChecks where
  minPriceChange5M : Option ℚ
  maxPriceChange5M : Option ℚ
  minVolumeGrowth : Option ℚ
  minLiquidityRatio : Option ℚ
  maxRiskScore : Option ℚ
  minTransactionCount : Option Nat
  requiresSocialLinks : Option Bool
deriving DecidableEq, Repr

/-- An additional-checks object with every threshold absent. -/
def emptyChecks : AdditionalChecks :=
  { minPriceChange5M := none, maxPriceChange5M := none, minVolumeGrowth := none
    minLiquidityRatio := none, maxRiskScore := none, minTransactionCount := none
    requiresSocialLinks := none }

/-- A combined filter preset (`CombinedFilterConfig`); the UI-only
`name`/`description`/`emoji` strings are omitted. -/
structure CombinedFilterConfig where
  criteria : GetScannerResultParams
  additionalChecks : Option AdditionalChecks
deriving DecidableEq, Repr

/-- `COMBINED_FILTER_PRESETS` of `test-task-types.ts`; `custom` maps to
`null`. -/
def COMBINED_FILTER_PRESETS : CombinedFilterName → Option CombinedFilterConfig
  | .moonshot => some
      { criteria :=
          { emptyParams with
              maxAge := some (24 * 60 * 60), minVol24H := some 5000
              rankBy := some .volume, orderBy := some .desc, isNotHP := some true }
        additionalChecks := some
          { emptyChecks with
              minPriceChange5M := some 5, minVolumeGrowth := some 50
              maxRiskScore := some 70, minTransactionCount := some 20 } }
  | .blueChip => some
      { criteria :=
          { emptyParams with
              minVol24H := some 100000, minLiq := some 50000
              maxAge := some (30 * 24 * 60 * 60), rankBy := some .volume
              orderBy := some .desc, isNotHP := some true, isVerified := some true }
        additionalChecks := some
          { emptyChecks with
              maxPriceChange5M := some 10, minLiquidityRatio := some (1 / 10)
              maxRiskScore := some 30, requiresSocialLinks := some true } }
  | .scalp => some
      { criteria :=
          { emptyParams with
              minVol24H := some 20000, rankBy := some .volume
              orderBy := some .desc, isNotHP := some true }
        additionalChecks := some
          { emptyChecks with
              minVolumeGrowth := some 100, minTransactionCount := some 50
              maxRiskScore := some 60 } }
  | .hodl => some
      { criteria :=
          { emptyParams with
              minVol24H := some 50000, minLiq := some 100000
              maxAge := some (365 * 24 * 60 * 60), rankBy := some .mcap
              orderBy := some .desc, isNotHP := some true, isVerified := some true }
        additionalChecks := some
          { emptyChecks with
              maxPriceChange5M := some 5, minLiquidityRatio := some (1 / 5)
              maxRiskScore := some 25, requiresSocialLinks := some true } }
  | .custom => none

/-- `getCombinedFilterConfig`: `null` type resolves to `null`, otherwise
the preset table is consulted (`PRESETS[type] || null`). -/
def getCombinedFilterConfig : Option CombinedFilterName → Option CombinedFilterConfig
  | none => none
  | some t => COMBINED_FILTER_PRESETS t

/-- Object-spread overlay of one optional key: a key present in the
criteria wins over the base. -/
def overlayKey {α : Type} (base crit : Option α) : Option α :=
  match crit with
  | some v => some v
  | none => base

/-- `applyCombinedFilterToParams`: `{...baseParams, ...config.criteria,
page: baseParams.page, chain: baseParams.chain}`. -/
def applyCombinedFilterToParams (baseParams : GetScannerResultParams)
    (combinedFilterType : Option CombinedFilterName) : GetScannerResultParams :=
  match combinedFilterType with
  | none => baseParams
  | some t =>
    match getCombinedFilterConfig (some t) with
    | none => baseParams
    | some config =>
      { chain := baseParams.chain
        orderBy := overlayKey baseParams.orderBy config.criteria.orderBy
        rankBy := overlayKey baseParams.rankBy config.criteria.rankBy
        page := baseParams.page
        isNotHP := overlayKey baseParams.isNotHP config.criteria.isNotHP
        isVerified := overlayKey baseParams.isVerified config.criteria.isVerified
        minVol24H := overlayKey baseParams.minVol24H config.criteria.minVol24H
        maxAge := overlayKey baseParams.maxAge config.criteria.maxAge
        minLiq := overlayKey baseParams.minLiq config.criteria.minLiq }

/-- Truthiness of the social-links presence check used by both
`passesAdditionalChecks` and `calculateRiskScore`: twitter, telegram or
website (discord is not consulted by the source). -/
def hasSocialLinks (token : TokenData) : Bool :=
  strTruthy token.socialLinks.twitter || strTruthy token.socialLinks.telegram ||
    strTruthy token.socialLinks.website

/-- `calculateRiskScore` of `combinedFilters.ts` (0-100, higher =
riskier); `now` is `Date.now()` in milliseconds.  The source guard
`if (token.tokenCreatedTimestamp)` always passes (a `Date` object is
truthy), so it is not modelled. -/
def calculateRiskScore (now : ℚ) (token : TokenData) : ℚ :=
  min 100 (max 0 (
    (if (now - token.tokenCreatedTimestamp) / (1000 * 60 * 60) < 1 then 40
     else if (now - token.tokenCreatedTimestamp) / (1000 * 60 * 60) < 24 then 30
     else if (now - token.tokenCreatedTimestamp) / (1000 * 60 * 60) < 168 then 20
     else if (now - token.tokenCreatedTimestamp) / (1000 * 60 * 60) < 720 then 10
     else 0)
    + (if token.liquidity.current ≠ 0 ∧ token.mcap ≠ 0 then
        (if token.liquidity.current / token.mcap < 5 / 100 then 25
         else if token.liquidity.current / token.mcap < 1 / 10 then 15
         else if token.liquidity.current / token.mcap < 1 / 5 then 5
         else 0)
       else 0)
    + (if token.audit.honeypot then 50 else 0)
    + (if token.audit.mintable then 20 else 0)
    + (if token.audit.freezable then 15 else 0)
    + (if !token.audit.contractVerified then 25 else 0)
    + (if token.volumeUsd < 1000 then 20
       else if token.volumeUsd < 10000 then 10 else 0)
    + (if !hasSocialLinks token then 15 else 0)))

/-- `passesAdditionalChecks` of `combinedFilters.ts`: every defined
threshold is checked in source order; the first failing check rejects. -/
def passesAdditionalChecks (now : ℚ) (token : TokenData)
    (combinedFilterType : Option CombinedFilterName) : Bool :=
  match combinedFilterType with
  | none => true
  | some t =>
    match (getCombinedFilterConfig (some t)).bind CombinedFilterConfig.additionalChecks with
    | none => true
    | some checks =>
      if (match checks.minPriceChange5M with
          | some minP => decide (token.priceChangePcs.pc5M < minP)
          | none => false) then false
      else if (match checks.maxPriceChange5M with
          | some maxP => decide (maxP < |token.priceChangePcs.pc5M|)
          | none => false) then false
      else if (match checks.minVolumeGrowth with
          | some _ => decide
              (token.transactions.buys + token.transactions.sells <
                checks.minTransactionCount.getD 10)
          | none => false) then false
      else if (match checks.minLiquidityRatio with
          | some minR => decide (token.liquidity.current ≠ 0 ∧ token.mcap ≠ 0 ∧
              token.liquidity.current / token.mcap < minR)
          | none => false) then false
      else if (match checks.maxRiskScore with
          | some maxR => decide (maxR < calculateRiskScore now token)
          | none => false) then false
      else if (match checks.minTransactionCount with
          | some minT => decide
              (token.transactions.buys + token.transactions.sells < minT)
          | none => false) then false
      else if checks.requiresSocialLinks.getD false && !hasSocialLinks token then false
      else true

/-- `filterTokensByCombinedFilter`: keep the tokens passing the preset's
additional checks; a `null` preset returns the list unchanged. -/
def filterTokensByCombinedFilter (now : ℚ) (tokens : List TokenData)
    (combinedFilterType : Option CombinedFilterName) : List TokenData :=
  match combinedFilterType with
  | none => tokens
  | some t => tokens.filter (fun token => passesAdditionalChecks now token (some t))

/-- C4: for every preset name (including `custom`/`null`) and every
base parameter object, the merged parameters keep the caller's `page`
and `chain` values. -/
theorem applyCombinedFilterToParams_preserves_page_chain
    (baseParams : GetScannerResultParams)
    (combinedFilterType : Option CombinedFilterName) :
    (applyCombinedFilterToParams baseParams combinedFilterType).page = baseParams.page
    ∧ (applyCombinedFilterToParams baseParams combinedFilterType).chain
        = baseParams.chain := by
  match combinedFilterType with
  | none => exact ⟨rfl, rfl⟩
  | some t => cases t <;> exact ⟨rfl, rfl⟩

/-- A canonical token with all-zero numerics, a clean audit and no
links, used to build concrete inputs. -/
def blankToken : TokenData :=
  { id := "", tokenName := "", tokenSymbol := "", tokenAddress := "", pairAddress := ""
    chain := .ETH, exchange := "", priceUsd := 0, volumeUsd := 0, mcap := 0
    totalSupply := 0
    priceChangePcs := { pc5M := 0, pc1H := 0, pc6H := 0, pc24H := 0 }
    transactions := { buys := 0, sells := 0 }
    audit := { mintable := false, freezable := false, honeypot := false
               contractVerified := true }
    tokenCreatedTimestamp := 0
    liquidity := { current := 0, changePc := 0 }
    migrationPc := none
    socialLinks := { discord := none, telegram := none, twitter := none, website := none }
    dexPaid := none, lastUpdated := 0 }

/-- An entity with none of the risk factors except that its only social
link is a discord link. -/
def clearDiscordToken : TokenData :=
  { blankToken with
      volumeUsd := 20000
      mcap := 100000
      liquidity := { current := 20000, changePc := 0 }
      socialLinks := { discord := some "https://discord.gg/x", telegram := none
                       twitter := none, website := none } }

/-- `Date.now()` used with `clearDiscordToken`: 800 hours after the
token's creation timestamp. -/
def clearNow : ℚ := 800 * (1000 * 60 * 60)

/-- An entity with every risk factor present. -/
def riskyToken : TokenData :=
  { blankToken with
      mcap := 100
      liquidity := { current := 1, changePc := 0 }
      audit := { mintable := true, freezable := true, honeypot := true
                 contractVerified := false } }

/-- An entity with none of the risk factors, whose social link is a
twitter link. -/
def clearSocialToken : TokenData :=
  { clearDiscordToken with
      socialLinks := { discord := none, telegram := none
                       twitter := some "https://x.com/a", website := none } }

/-- C7 counterexample: an entity satisfying every all-clear condition of
the claim — older than one month, liquidity-to-mcap ratio ≥ 0.2, clean
audit, verified, volume ≥ 10000, and at least one social link (a discord
link) — scores 15, not 0: the score's social-presence check ignores the
discord field. -/
theorem riskScore_discord_only_counterexample :
    720 ≤ (clearNow - clearDiscordToken.tokenCreatedTimestamp) / (1000 * 60 * 60)
    ∧ 1 / 5 ≤ clearDiscordToken.liquidity.current / clearDiscordToken.mcap
    ∧ clearDiscordToken.liquidity.current ≠ 0 ∧ clearDiscordToken.mcap ≠ 0
    ∧ clearDiscordToken.audit.honeypot = false
    ∧ clearDiscordToken.audit.mintable = false
    ∧ clearDiscordToken.audit.freezable = false
    ∧ clearDiscordToken.audit.contractVerified = true
    ∧ 10000 ≤ clearDiscordToken.volumeUsd
    ∧ strTruthy clearDiscordToken.socialLinks.discord = true
    ∧ calculateRiskScore clearNow clearDiscordToken = 15 := by
  norm_num [clearNow, clearDiscordToken, blankToken, calculateRiskScore, hasSocialLinks,
    strTruthy]
  decide

/-- C7 (amended): the computed risk score always lies in [0,100]; an
entity with every risk factor present scores exactly 100; an entity with
none of them — where "has a social link" means a twitter, telegram or
website link, the links the source consults — scores exactly 0. -/
theorem riskScore_bounds_and_extremes (now : ℚ) (t : TokenData) :
    (0 ≤ calculateRiskScore now t ∧ calculateRiskScore now t ≤ 100)
    ∧ ((now - t.tokenCreatedTimestamp) / (1000 * 60 * 60) < 1 →
        t.liquidity.current ≠ 0 → t.mcap ≠ 0 →
        t.liquidity.current / t.mcap < 5 / 100 →
        t.audit.honeypot = true → t.audit.mintable = true →
        t.audit.freezable = true → t.audit.contractVerified = false →
        t.volumeUsd < 1000 → hasSocialLinks t = false →
        calculateRiskScore now t = 100)
    ∧ (720 ≤ (now - t.tokenCreatedTimestamp) / (1000 * 60 * 60) →
        t.liquidity.current ≠ 0 → t.mcap ≠ 0 →
        1 / 5 ≤ t.liquidity.current / t.mcap →
        t.audit.honeypot = false → t.audit.mintable = false →
        t.audit.freezable = false → t.audit.contractVerified = true →
        10000 ≤ t.volumeUsd → hasSocialLinks t = true →
        calculateRiskScore now t = 0) := by
  refine ⟨⟨le_min (by norm_num) (le_max_left _ _), min_le_left _ _⟩, ?_, ?_⟩
  · intro h1 h2 h3 h4 h5 h6 h7 h8 h9 h10
    rw [calculateRiskScore, if_pos h1, if_pos ⟨h2, h3⟩, if_pos h4, h5, h6, h7, h8, h10,
      if_pos h9]
    norm_num
  · intro h1 h2 h3 h4 h5 h6 h7 h8 h9 h10
    rw [calculateRiskScore,
      if_neg (not_lt.mpr (le_trans (by norm_num : (1 : ℚ) ≤ 720) h1)),
      if_neg (not_lt.mpr (le_trans (by norm_num : (24 : ℚ) ≤ 720) h1)),
      if_neg (not_lt.mpr (le_trans (by norm_num : (168 : ℚ) ≤ 720) h1)),
      if_neg (not_lt.mpr h1),
      if_pos ⟨h2, h3⟩,
      if_neg (not_lt.mpr (le_trans (by norm_num : (5 : ℚ) / 100 ≤ 1 / 5) h4)),
      if_neg (not_lt.mpr (le_trans (by norm_num : (1 : ℚ) / 10 ≤ 1 / 5) h4)),
      if_neg (not_lt.mpr h4),
      h5, h6, h7, h8, h10,
      if_neg (not_lt.mpr (le_trans (by norm_num : (1000 : ℚ) ≤ 10000) h9)),
      if_neg (not_lt.mpr h9)]
    norm_num

/-- Witness for C7's amended theorem: the extremes evaluated at concrete
entities. -/
theorem riskScore_bounds_and_extremes_witness :
    calculateRiskScore 0 riskyToken = 100 ∧
    calculateRiskScore clearNow clearSocialToken = 0 := by
  constructor
  · exact (riskScore_bounds_and_extremes 0 riskyToken).2.1
      (by norm_num [riskyToken, blankToken])
      (by norm_num [riskyToken, blankToken])
      (by norm_num [riskyToken, blankToken])
      (by norm_num [riskyToken, blankToken])
      (by norm_num [riskyToken, blankToken]) (by norm_num [riskyToken, blankToken])
      (by norm_num [riskyToken, blankToken]) (by norm_num [riskyToken, blankToken])
      (by norm_num [riskyToken, blankToken])
      (by norm_num [riskyToken, blankToken, hasSocialLinks, strTruthy])
  · exact (riskScore_bounds_and_extremes clearNow clearSocialToken).2.2
      (by norm_num [clearNow, clearSocialToken, clearDiscordToken, blankToken])
      (by norm_num [clearSocialToken, clearDiscordToken, blankToken])
      (by norm_num [clearSocialToken, clearDiscordToken, blankToken])
      (by norm_num [clearSocialToken, clearDiscordToken, blankToken])
      (by norm_num [clearSocialToken, clearDiscordToken, blankToken])
      (by norm_num [clearSocialToken, clearDiscordToken, blankToken])
      (by norm_num [clearSocialToken, clearDiscordToken, blankToken])
      (by norm_num [clearSocialToken, clearDiscordToken, blankToken])
      (by norm_num [clearSocialToken, clearDiscordToken, blankToken])
      (by norm_num [clearSocialToken, clearDiscordToken, blankToken, hasSocialLinks,
        strTruthy]; decide)

/-! ### Synchronization engine: realtime patches (`useTokenData.ts`,
`handleWebSocketMessage`) -/

/-- A realtime swap (`WsTokenSwap`), restricted to the two fields the
tick handler reads; `priceToken1Usd` is the parsed value of the wire's
numeric string. -/
structure WsTokenSwap where
  priceToken1Usd : ℚ
  isOutlier : Bool
deriving DecidableEq, Repr

/-- The `tick` case of `handleWebSocketMessage`: take the last
non-outlier swap (`filter(...).pop()`); if there is none, nothing
happens; otherwise overwrite price, recompute mcap as
`totalSupply * newPrice` and stamp `lastUpdated`, returning the
previous list object when no entity's pair address matches. -/
def applyTick (pairId : String) (swaps : List WsTokenSwap) (now : ℚ)
    (prev : List TokenData) : List TokenData :=
  match (swaps.filter (fun swap => !swap.isOutlier)).getLast? with
  | none => prev
  | some latestSwap =>
    let updatedTokens := prev.map (fun token =>
      if token.pairAddress == pairId then
        { token with
            priceUsd := latestSwap.priceToken1Usd
            mcap := token.totalSupply * latestSwap.priceToken1Usd
            lastUpdated := now }
      else token)
    if prev.any (fun token => token.pairAddress == pairId) then updatedTokens else prev

/-- The pair details of a `pair-stats` event (`ScannerPairDetails`),
restricted to the fields the handler reads. -/
structure ScannerPairDetails where
  pairAddress : String
  mintAuthorityRenounced : Bool
  freezeAuthorityRenounced : Bool
  token1IsHoneypot : Option Bool
  isVerified : Bool
  linkDiscord : Option String
  linkTelegram : Option String
  linkTwitter : Option String
  linkWebsite : Option String
  dexPaid : Bool
deriving DecidableEq, Repr

/-- The `pair-stats` case of `handleWebSocketMessage`: overwrite audit
booleans, social links, migration progress (`migrationProgress` is the
parsed value of the wire string), dex-paid flag and `lastUpdated`,
returning the previous list object when no pair address matches. -/
def applyPairStats (pairData : ScannerPairDetails) (migrationProgress : ℚ) (now : ℚ)
    (prev : List TokenData) : List TokenData :=
  let updatedTokens := prev.map (fun token =>
    if token.pairAddress == pairData.pairAddress then
      { token with
          migrationPc := some migrationProgress
          audit :=
            { mintable := pairData.mintAuthorityRenounced
              freezable := pairData.freezeAuthorityRenounced
              honeypot := !(pairData.token1IsHoneypot.getD false)
              contractVerified := pairData.isVerified }
          socialLinks :=
            { discord := jsOrUndef pairData.linkDiscord
              telegram := jsOrUndef pairData.linkTelegram
              twitter := jsOrUndef pairData.linkTwitter
              website := jsOrUndef pairData.linkWebsite }
          dexPaid := some pairData.dexPaid
          lastUpdated := now }
    else token)
  if prev.any (fun token => token.pairAddress == pairData.pairAddress) then updatedTokens
  else prev

/-- One step of the `scanner-pairs` update loop over existing entities:
the first incoming normalized record with the same id replaces the
stored entity iff it is strictly fresher. -/
def mergeExisting (updatedTokens : List TokenData) (token : TokenData) : TokenData :=
  match updatedTokens.find? (fun newToken => newToken.id == token.id) with
  | some newTokenData =>
      if token.lastUpdated < newTokenData.lastUpdated then newTokenData else token
  | none => token

/-- One step of the `scanner-pairs` add loop: append an incoming record
whose id is not yet present. -/
def addNewToken (acc : List TokenData) (newToken : TokenData) : List TokenData :=
  if acc.any (fun x => x.id == newToken.id) then acc else acc ++ [newToken]

/-- The `scanner-pairs` case of `handleWebSocketMessage`, applied to the
already-normalized incoming batch `updatedTokens`: refresh stale
existing entities in place, then append the batch's genuinely new ids
in batch order. -/
def applyScannerPairs (prev updatedTokens : List TokenData) : List TokenData :=
  updatedTokens.foldl addNewToken (prev.map (mergeExisting updatedTokens))

/-- The fold of `addNewToken` only ever appends to its accumulator. -/
theorem foldl_addNewToken_eq_append (l : List TokenData) (base : List TokenData) :
    ∃ s, l.foldl addNewToken base = base ++ s := by
  induction l generalizing base with
  | nil => exact ⟨[], by simp⟩
  | cons m rest ih =>
    rw [List.foldl_cons]
    by_cases h : base.any (fun x => x.id == m.id) = true
    · rcases ih base with ⟨s, hs⟩
      refine ⟨s, ?_⟩
      have hred : addNewToken base m = base := by
        unfold addNewToken
        rw [if_pos h]
      rw [hred]
      exact hs
    · rcases ih (base ++ [m]) with ⟨s, hs⟩
      refine ⟨m :: s, ?_⟩
      have hred : addNewToken base m = base ++ [m] := by
        unfold addNewToken
        rw [if_neg h]
      rw [hred, hs, List.append_assoc]
      rfl

/-- Replacement by a same-id fresher record preserves the entity id. -/
theorem mergeExisting_id (l : List TokenData) (t : TokenData) :
    (mergeExisting l t).id = t.id := by
  cases hf : l.find? (fun newToken => newToken.id == t.id) with
  | none => simp [mergeExisting, hf]
  | some m =>
    have hid : m.id = t.id := by simpa [beq_iff_eq] using List.find?_some hf
    by_cases hlt : t.lastUpdated < m.lastUpdated
    · simp [mergeExisting, hf, hlt, hid]
    · simp [mergeExisting, hf, hlt]

/-- Ids present in the accumulator survive the add loop. -/
theorem ids_subset_foldl (l : List TokenData) (base : List TokenData) (x : String)
    (hx : x ∈ base.map TokenData.id) :
    x ∈ (l.foldl addNewToken base).map TokenData.id := by
  obtain ⟨s, hs⟩ := foldl_addNewToken_eq_append l base
  rw [hs, List.map_append]
  exact List.mem_append_left _ hx

/-- Every id of the incoming batch is present after the add loop. -/
theorem mem_ids_foldl (l : List TokenData) (base : List TokenData) (m : TokenData)
    (hm : m ∈ l) : m.id ∈ (l.foldl addNewToken base).map TokenData.id := by
  induction l generalizing base with
  | nil => cases hm
  | cons a rest ih =>
    rw [List.foldl_cons]
    rcases List.mem_cons.mp hm with h | h
    · subst h
      apply ids_subset_foldl
      by_cases hc : base.any (fun x => x.id == m.id) = true
      · have hred : addNewToken base m = base := by
          unfold addNewToken
          rw [if_pos hc]
        rw [hred]
        rcases List.any_eq_true.mp hc with ⟨x, hxmem, hxid⟩
        have hxeq : x.id = m.id := by simpa [beq_iff_eq] using hxid
        rw [← hxeq]
        exact List.mem_map_of_mem TokenData.id hxmem
      · have hred : addNewToken base m = base ++ [m] := by
          unfold addNewToken
          rw [if_neg hc]
        rw [hred, List.map_append]
        apply List.mem_append_right
        simp
    · exact ih (addNewToken base a) h

/-- C1: `applyScannerPairs` keeps an existing entity unchanged whenever
the first matching incoming record is not strictly fresher, replaces it
with that record when it is, leaves entities with no matching incoming
id untouched, retains every previous id, adds every incoming id, and
never decreases the set's size. -/
theorem applyScannerPairs_spec (prev updatedTokens : List TokenData) :
    prev.length ≤ (applyScannerPairs prev updatedTokens).length
    ∧ (∀ i t, prev.get? i = some t →
        (updatedTokens.find? (fun newToken => newToken.id == t.id) = none →
          (applyScannerPairs prev updatedTokens).get? i = some t)
        ∧ (∀ m, updatedTokens.find? (fun newToken => newToken.id == t.id) = some m →
            (m.lastUpdated ≤ t.lastUpdated →
              (applyScannerPairs prev updatedTokens).get? i = some t)
            ∧ (t.lastUpdated < m.lastUpdated →
              (applyScannerPairs prev updatedTokens).get? i = some m)))
    ∧ (∀ t ∈ prev, t.id ∈ (applyScannerPairs prev updatedTokens).map TokenData.id)
    ∧ (∀ m ∈ updatedTokens,
        m.id ∈ (applyScannerPairs prev updatedTokens).map TokenData.id) := by
  obtain ⟨s, hs⟩ :=
    foldl_addNewToken_eq_append updatedTokens (prev.map (mergeExisting updatedTokens))
  have hres : applyScannerPairs prev updatedTokens
      = prev.map (mergeExisting updatedTokens) ++ s := hs
  refine ⟨?_, ?_, ?_, ?_⟩
  · rw [hres, List.length_append, List.length_map]
    omega
  · intro i t hget
    obtain ⟨hi, -⟩ := List.get?_eq_some.mp hget
    have key : (applyScannerPairs prev updatedTokens).get? i
        = some (mergeExisting updatedTokens t) := by
      rw [hres, List.get?_append (by rwa [List.length_map]), List.get?_map, hget]
      rfl
    constructor
    · intro hnone
      rw [key]
      simp only [mergeExisting, hnone]
    · intro m hm
      constructor
      · intro hle
        rw [key]
        simp only [mergeExisting, hm, if_neg (not_lt.mpr hle)]
      · intro hlt
        rw [key]
        simp only [mergeExisting, hm, if_pos hlt]
  · intro t ht
    have h1 : mergeExisting updatedTokens t ∈ prev.map (mergeExisting updatedTokens) :=
      List.mem_map_of_mem _ ht
    have h2 : t.id ∈ (prev.map (mergeExisting updatedTokens)).map TokenData.id := by
      rw [← mergeExisting_id updatedTokens t]
      exact List.mem_map_of_mem _ h1
    exact ids_subset_foldl updatedTokens _ _ h2
  · intro m hm
    exact mem_ids_foldl updatedTokens _ m hm

/-- A stored entity with id `A`, last updated at time 1. -/
def wOldToken : TokenData := { blankToken with id := "A", lastUpdated := 1 }

/-- An incoming normalized record with id `A`, last updated at time 2. -/
def wNewToken : TokenData := { blankToken with id := "A", lastUpdated := 2, priceUsd := 9 }

/-- Witness for C1: a strictly fresher incoming record replaces the
stored entity, and the set does not shrink. -/
theorem applyScannerPairs_spec_witness :
    (applyScannerPairs [wOldToken] [wNewToken]).get? 0 = some wNewToken ∧
    1 ≤ (applyScannerPairs [wOldToken] [wNewToken]).length := by
  constructor
  · exact (((applyScannerPairs_spec [wOldToken] [wNewToken]).2.1 0 wOldToken rfl).2
      wNewToken rfl).2 (by norm_num [wOldToken, wNewToken, blankToken])
  · exact (applyScannerPairs_spec [wOldToken] [wNewToken]).1

/-- C2: a tick whose swaps are all outliers changes nothing; a tick with
a non-outlier swap updates every entity with the matching pair address:
price becomes the selected (last non-outlier) swap's USD price, mcap
becomes `totalSupply * newPrice`, `lastUpdated` is stamped to now. -/
theorem applyTick_spec (pairId : String) (swaps : List WsTokenSwap) (now : ℚ)
    (prev : List TokenData) :
    ((∀ swap ∈ swaps, swap.isOutlier = true) → applyTick pairId swaps now prev = prev)
    ∧ (∀ latestSwap,
        (swaps.filter (fun swap => !swap.isOutlier)).getLast? = some latestSwap →
        ∀ i t, prev.get? i = some t → t.pairAddress = pairId →
          (applyTick pairId swaps now prev).get? i = some
            { t with
                priceUsd := latestSwap.priceToken1Usd
                mcap := t.totalSupply * latestSwap.priceToken1Usd
                lastUpdated := now }) := by
  constructor
  · intro h
    have hf : swaps.filter (fun swap => !swap.isOutlier) = [] := by
      rw [List.filter_eq_nil]
      intro a ha
      simp [h a ha]
    unfold applyTick
    rw [hf]
    rfl
  · intro latestSwap hlast i t hget hpa
    have hmem : t ∈ prev := List.get?_mem hget
    have hany : prev.any (fun token => token.pairAddress == pairId) = true := by
      rw [List.any_eq_true]
      exact ⟨t, hmem, by simp [hpa]⟩
    unfold applyTick
    rw [hlast]
    simp only [hany, if_true]
    rw [List.get?_map, hget]
    simp [hpa]

/-- A stored entity for the tick witnesses, pair address `P`, total
supply 10. -/
def wTickToken : TokenData := { blankToken with pairAddress := "P", totalSupply := 10 }

/-- An outlier swap. -/
def wOutlierSwap : WsTokenSwap := { priceToken1Usd := 3, isOutlier := true }

/-- A non-outlier swap at USD price 2. -/
def wGoodSwap : WsTokenSwap := { priceToken1Usd := 2, isOutlier := false }

/-- Witness for C2: an all-outlier tick is a no-op, and a non-outlier
tick at price 2 updates the matching entity's price, mcap and
timestamp. -/
theorem applyTick_spec_witness :
    applyTick "P" [wOutlierSwap] 7 [wTickToken] = [wTickToken] ∧
    (applyTick "P" [wGoodSwap] 7 [wTickToken]).get? 0
      = some { wTickToken with
                priceUsd := wGoodSwap.priceToken1Usd
                mcap := wTickToken.totalSupply * wGoodSwap.priceToken1Usd
                lastUpdated := 7 } := by
  constructor
  · exact (applyTick_spec "P" [wOutlierSwap] 7 [wTickToken]).1 (by decide)
  · exact (applyTick_spec "P" [wGoodSwap] 7 [wTickToken]).2 wGoodSwap rfl 0
      wTickToken rfl rfl

/-- C3: a tick or pair-stats event whose pair identity matches no stored
entity leaves the canonical list unchanged (the handler returns the
previous array object itself). -/
theorem unknown_pair_patch_noop (pairId : String) (swaps : List WsTokenSwap)
    (pairData : ScannerPairDetails) (migrationProgress now now2 : ℚ)
    (prev : List TokenData)
    (h1 : ∀ t ∈ prev, t.pairAddress ≠ pairId)
    (h2 : ∀ t ∈ prev, t.pairAddress ≠ pairData.pairAddress) :
    applyTick pairId swaps now prev = prev
    ∧ applyPairStats pairData migrationProgress now2 prev = prev := by
  constructor
  · unfold applyTick
    cases hlast : (swaps.filter (fun swap => !swap.isOutlier)).getLast? with
    | none => rfl
    | some latestSwap =>
      have hany : prev.any (fun token => token.pairAddress == pairId) = false := by
        rw [List.any_eq_false]
        intro t ht
        simp [h1 t ht]
      simp [hany]
  · unfold applyPairStats
    have hany : prev.any (fun token => token.pairAddress == pairData.pairAddress)
        = false := by
      rw [List.any_eq_false]
      intro t ht
      simp [h2 t ht]
    simp [hany]

/-- A pair-stats payload used by witnesses. -/
def wPairDetails : ScannerPairDetails :=
  { pairAddress := "R", mintAuthorityRenounced := true, freezeAuthorityRenounced := false
    token1IsHoneypot := some false, isVerified := true, linkDiscord := none
    linkTelegram := none, linkTwitter := some "https://x.com/t", linkWebsite := none
    dexPaid := true }

/-- Witness for C3: events for pair ids `Q` and `R` leave a list holding
only pair id `P` unchanged. -/
theorem unknown_pair_patch_noop_witness :
    applyTick "Q" [] 0 [{ blankToken with pairAddress := "P" }]
      = [{ blankToken with pairAddress := "P" }] ∧
    applyPairStats wPairDetails 5 0 [{ blankToken with pairAddress := "P" }]
      = [{ blankToken with pairAddress := "P" }] :=
  unknown_pair_patch_noop "Q" [] wPairDetails 5 0 0
    [{ blankToken with pairAddress := "P" }] (by decide) (by decide)

/-- C10: a pair-stats patch writes the audit flags with the renounced /
negated-honeypot polarity, while the normalizer uses the disabled-
negation / raw-honeypot polarity. -/
theorem pairStats_audit_polarity (pairData : ScannerPairDetails)
    (migrationProgress now : ℚ) (prev : List TokenData) (i : Nat) (t : TokenData)
    (hget : prev.get? i = some t) (hpa : t.pairAddress = pairData.pairAddress) :
    (applyPairStats pairData migrationProgress now prev).get? i = some
      { t with
          migrationPc := some migrationProgress
          audit :=
            { mintable := pairData.mintAuthorityRenounced
              freezable := pairData.freezeAuthorityRenounced
              honeypot := !(pairData.token1IsHoneypot.getD false)
              contractVerified := pairData.isVerified }
          socialLinks :=
            { discord := jsOrUndef pairData.linkDiscord
              telegram := jsOrUndef pairData.linkTelegram
              twitter := jsOrUndef pairData.linkTwitter
              website := jsOrUndef pairData.linkWebsite }
          dexPaid := some pairData.dexPaid
          lastUpdated := now }
    ∧ ∀ (now2 : ℚ) (r : ScannerResult),
        (scannerResultToToken now2 r).audit.mintable = !r.isMintAuthDisabled
        ∧ (scannerResultToToken now2 r).audit.freezable = !r.isFreezeAuthDisabled
        ∧ (scannerResultToToken now2 r).audit.honeypot = r.honeyPot.getD false
        ∧ (scannerResultToToken now2 r).audit.contractVerified = r.contractVerified := by
  constructor
  · have hmem : t ∈ prev := List.get?_mem hget
    have hany : prev.any
        (fun token => token.pairAddress == pairData.pairAddress) = true := by
      rw [List.any_eq_true]
      exact ⟨t, hmem, by simp [hpa]⟩
    unfold applyPairStats
    simp only [hany, if_true]
    rw [List.get?_map, hget]
    simp [hpa]
  · intro now2 r
    exact ⟨rfl, rfl, rfl, rfl⟩

/-- A stored entity with pair address `R` for the pair-stats witness. -/
def wStatsToken : TokenData := { blankToken with pairAddress := "R" }

/-- Witness for C10: the polarity theorem evaluated on a concrete
matching entity. -/
theorem pairStats_audit_polarity_witness :
    (applyPairStats wPairDetails 5 3 [wStatsToken]).get? 0 = some
      { wStatsToken with
          migrationPc := some 5
          audit :=
            { mintable := wPairDetails.mintAuthorityRenounced
              freezable := wPairDetails.freezeAuthorityRenounced
              honeypot := !(wPairDetails.token1IsHoneypot.getD false)
              contractVerified := wPairDetails.isVerified }
          socialLinks :=
            { discord := jsOrUndef wPairDetails.linkDiscord
              telegram := jsOrUndef wPairDetails.linkTelegram
              twitter := jsOrUndef wPairDetails.linkTwitter
              website := jsOrUndef wPairDetails.linkWebsite }
          dexPaid := some wPairDetails.dexPaid
          lastUpdated := 3 } :=
  (pairStats_audit_polarity wPairDetails 5 3 [wStatsToken] 0 wStatsToken rfl rfl).1

/-! ### Synchronization engine: snapshot loading state machine
(`useTokenData.ts`, `loadData` / `loadMore`)

The hook state relevant to pagination and request lifetimes, with the
set of in-flight fetches made explicit.  `startLoad page append` models
invoking `loadData(page, append)` up to its `await` (note the source
sets `loading`/`error` only when `append` is false); `completeFetch idx
resp now` models the awaited response of the `idx`-th outstanding
request arriving and the rest of `loadData` running on it.  `filterGen`
numbers the filter/sort state a request's parameters were built from
(bumped by `changeFilters`, the effect that restarts from page 1). -/

/-- An outstanding snapshot request. -/
structure FetchRequest where
  page : Nat
  append : Bool
  gen : Nat
deriving DecidableEq, Repr

/-- A snapshot response (`ScannerApiResponse`). -/
structure FetchResponse where
  pairs : List ScannerResult
  totalRows : Nat
deriving DecidableEq, Repr

/-- The hook's state (`useState` fields plus `tokensMapRef`), with the
in-flight request list and a fetch counter made explicit. -/
structure EngineState where
  tokens : List TokenData
  tokensMap : List TokenData
  loading : Bool
  errorMsg : Option String
  totalRows : Nat
  currentPage : Nat
  hasMore : Bool
  combinedFilter : Option CombinedFilterName
  filterGen : Nat
  inflight : List FetchRequest
  fetchCount : Nat
deriving DecidableEq, Repr

/-- The `useState` initial values: `loading` starts true, `hasMore`
starts true, page 1, empty collections. -/
def initialEngineState (combinedFilter : Option CombinedFilterName) : EngineState :=
  { tokens := [], tokensMap := [], loading := true, errorMsg := none, totalRows := 0
    currentPage := 1, hasMore := true, combinedFilter := combinedFilter, filterGen := 0
    inflight := [], fetchCount := 0 }

/-- `Map.set` keyed by `id` on the insertion-ordered map: overwrite in
place when present, append when absent. -/
def mapInsert (m : List TokenData) (token : TokenData) : List TokenData :=
  if m.any (fun x => x.id == token.id) then
    m.map (fun x => if x.id == token.id then token else x)
  else m ++ [token]

/-- `loadData(page, append)` up to its `await`: when `append` is false
it sets `loading` and clears the error; either way a fetch with the
current parameters (generation) goes out. -/
def startLoad (page : Nat) (append : Bool) (s : EngineState) : EngineState :=
  let s1 := if append then s else { s with loading := true, errorMsg := none }
  { s1 with
      inflight := s1.inflight ++ [{ page := page, append := append, gen := s1.filterGen }]
      fetchCount := s1.fetchCount + 1 }

/-- The filter/sort-change effect: bump the parameter generation, reset
to page 1 and start a non-append load (`setCurrentPage(1);
loadData(1, false)`). -/
def changeFilters (s : EngineState) : EngineState :=
  startLoad 1 false { s with filterGen := s.filterGen + 1, currentPage := 1 }

/-- `loadMore`: guarded by `!loading && hasMore`, then
`loadData(currentPage + 1, true)`. -/
def invokeLoadMore (s : EngineState) : EngineState :=
  if !s.loading && s.hasMore then startLoad (s.currentPage + 1) true s else s

/-- A successful response for the `idx`-th outstanding request arriving:
the rest of `loadData` — normalize, apply combined-filter checks, merge
(replace when `append` is false, keyed insert when true), update
`totalRows`/`hasMore`/`currentPage`, and the `finally` clearing
`loading`.  No generation check is performed on `req`. -/
def completeFetch (idx : Nat) (resp : FetchResponse) (now : ℚ) (s : EngineState) :
    EngineState :=
  match s.inflight.get? idx with
  | none => s
  | some req =>
    let s0 := { s with inflight := s.inflight.eraseIdx idx }
    let normalized := resp.pairs.map (scannerResultToToken now)
    let newTokens :=
      match s0.combinedFilter with
      | none => normalized
      | some t => filterTokensByCombinedFilter now normalized (some t)
    if req.append then
      let newMap := newTokens.foldl mapInsert s0.tokensMap
      { s0 with
          tokensMap := newMap
          tokens := newMap
          totalRows := resp.totalRows
          hasMore := decide (0 < resp.pairs.length) && decide (newMap.length < resp.totalRows)
          currentPage := req.page
          loading := false }
    else
      let newMap := newTokens.foldl mapInsert []
      { s0 with
          tokensMap := newMap
          tokens := newTokens
          totalRows := resp.totalRows
          hasMore := decide (0 < resp.pairs.length) && decide (newTokens.length < resp.totalRows)
          currentPage := req.page
          loading := false }

/-- A snapshot record with pair address `A`. -/
def recA : ScannerResult := { blankRecord with pairAddress := "A", token1Address := "TA" }

/-- A snapshot record with pair address `B`. -/
def recB : ScannerResult := { blankRecord with pairAddress := "B", token1Address := "TB" }

/-- Initial page-1 load issued. -/
def ldState0 : EngineState := startLoad 1 false (initialEngineState none)

/-- Page 1 returned 2 of 5 rows: `loading` is false, `hasMore` true. -/
def ldState1 : EngineState :=
  completeFetch 0 { pairs := [recA, recB], totalRows := 5 } 1000 ldState0

/-- First `loadMore` invocation: a page-2 append fetch goes out. -/
def ldState2 : EngineState := invokeLoadMore ldState1

/-- Second `loadMore` invocation while the first is still in flight. -/
def ldState3 : EngineState := invokeLoadMore ldState2

/-- C5 (code behaviour at the failing input): because `loadData` sets
`loading` only for non-append loads, a second `loadMore` invoked while
the first load-more request is still in flight passes the
`!loading && hasMore` guard and issues a duplicate fetch, leaving two
outstanding snapshot requests. -/
theorem loadMore_duplicate_fetch :
    ldState1.loading = false ∧ ldState1.hasMore = true ∧ ldState1.inflight.length = 0
    ∧ ldState2.inflight.length = 1 ∧ ldState2.loading = false
    ∧ ldState2.hasMore = true
    ∧ ldState3.fetchCount = ldState2.fetchCount + 1
    ∧ ldState3.inflight.length = 2 :=
  ⟨rfl, rfl, rfl, rfl, rfl, rfl, rfl, rfl⟩

/-- A page-1 request issued for filter generation 1. -/
def stState1 : EngineState := changeFilters (initialEngineState none)

/-- Filters change again while the first request is in flight: a second
page-1 request for generation 2. -/
def stState2 : EngineState := changeFilters stState1

/-- The newer (generation 2) request's response arrives first. -/
def stState3 : EngineState :=
  completeFetch 1 { pairs := [recB], totalRows := 1 } 2000 stState2

/-- The stale (generation 1) response arrives afterwards. -/
def stState4 : EngineState :=
  completeFetch 0 { pairs := [recA], totalRows := 1 } 3000 stState3

/-- C6 (code behaviour at the failing input): with no request
generation tracking, the stale generation-1 response arriving after the
newer generation-2 response is merged anyway, replacing the canonical
set `[B]` of the newer request with the stale `[A]`. -/
theorem stale_response_merged :
    stState2.inflight = [{ page := 1, append := false, gen := 1 },
                         { page := 1, append := false, gen := 2 }]
    ∧ stState3.tokens.map TokenData.id = ["B"]
    ∧ stState3.inflight = [{ page := 1, append := false, gen := 1 }]
    ∧ stState4.tokens.map TokenData.id = ["A"]
    ∧ stState4.inflight = [] :=
  ⟨rfl, rfl, rfl, rfl, rfl⟩

/-! ### Subscription bookkeeping (`useTokenData.ts`,
`subscribeToTokens` and the tokens-change effect) -/

/-- Wire name of a chain (`SupportedChainName`). -/
def chainName : Chain → String
  | .ETH => "ETH"
  | .BSC => "BSC"
  | .BASE => "BASE"
  | .SOL => "SOL"

/-- The subscription key
`pairAddress + "|" + tokenAddress + "|" + chain`. -/
def subscriptionKey (token : TokenData) : String :=
  token.pairAddress ++ "|" ++ token.tokenAddress ++ "|" ++ chainName token.chain

/-- `Set.add`: insertion-ordered set insert. -/
def setInsert (l : List String) (k : String) : List String :=
  if l.contains k then l else l ++ [k]

/-- The observable effect of one `subscribeToTokens` call. -/
structure SubscribeOutcome where
  unsubscribedKeys : List String
  subscribedKeys : List String
  filterSubscriptions : Nat
  newSubscriptionSet : List String
deriving DecidableEq, Repr

/-- `subscribeToTokens`: if the socket is not connected, nothing
happens; otherwise every previously subscribed key is unsubscribed
(pair and pair-stats rooms), the set is cleared, every token in the
list is subscribed and recorded, and one aggregate scanner-filter
subscription is sent. -/
def subscribeToTokens (connected : Bool) (prevSubscriptions : List String)
    (tokensToSubscribe : List TokenData) : SubscribeOutcome :=
  if !connected then
    { unsubscribedKeys := [], subscribedKeys := [], filterSubscriptions := 0
      newSubscriptionSet := prevSubscriptions }
  else
    { unsubscribedKeys := prevSubscriptions
      subscribedKeys := tokensToSubscribe.map subscriptionKey
      filterSubscriptions := 1
      newSubscriptionSet :=
        tokensToSubscribe.foldl (fun acc token => setInsert acc (subscriptionKey token)) [] }

/-- The tokens-change effect: `subscribeToTokens(tokens)` runs only when
the list is non-empty. -/
def onTokensChange (connected : Bool) (prevSubscriptions : List String)
    (tokens : List TokenData) : SubscribeOutcome :=
  if 0 < tokens.length then subscribeToTokens connected prevSubscriptions tokens
  else
    { unsubscribedKeys := [], subscribedKeys := [], filterSubscriptions := 0
      newSubscriptionSet := prevSubscriptions }

/-- A token with pair address `P`, token address `T`, chain `ETH`. -/
def wSubToken : TokenData :=
  { blankToken with pairAddress := "P", tokenAddress := "T", chain := .ETH }

/-- C9 counterexample: with previous subscription set `{P|T|ETH}` and
the new list still containing exactly that identity, the symmetric
difference is empty, yet the engine unsubscribes `P|T|ETH` (and then
re-subscribes it): it does not unsubscribe only the identities no
longer present. -/
theorem subscribe_unsubscribes_retained_identity :
    subscriptionKey wSubToken = "P|T|ETH"
    ∧ (onTokensChange true ["P|T|ETH"] [wSubToken]).unsubscribedKeys = ["P|T|ETH"]
    ∧ "P|T|ETH" ∈ [wSubToken].map subscriptionKey
    ∧ (onTokensChange true ["P|T|ETH"] [wSubToken]).unsubscribedKeys ≠ [] := by
  refine ⟨rfl, rfl, ?_, ?_⟩
  · simp [subscriptionKey, wSubToken, blankToken, chainName]
  · intro hcontra
    exact List.cons_ne_nil "P|T|ETH" [] hcontra

/-- C9 (amended): whenever the visible entity list changes and is
non-empty (and the socket is connected), the engine unsubscribes every
previously subscribed identity, subscribes every identity in the
current list (re-subscribing retained ones), issues exactly one
aggregate filter subscription, and the new subscription set is the
current list's key set in first-occurrence order. -/
theorem subscribe_full_resubscribe (prevSubscriptions : List String)
    (tokens : List TokenData) (h : tokens ≠ []) :
    (onTokensChange true prevSubscriptions tokens).unsubscribedKeys = prevSubscriptions
    ∧ (onTokensChange true prevSubscriptions tokens).subscribedKeys
        = tokens.map subscriptionKey
    ∧ (onTokensChange true prevSubscriptions tokens).filterSubscriptions = 1
    ∧ (onTokensChange true prevSubscriptions tokens).newSubscriptionSet
        = tokens.foldl (fun acc token => setInsert acc (subscriptionKey token)) [] := by
  have hlen : 0 < tokens.length := List.length_pos.mpr h
  simp [onTokensChange, subscribeToTokens, hlen]

/-- Witness for C9's amended theorem at a concrete previous set and
token list. -/
theorem subscribe_full_resubscribe_witness :
    (onTokensChange true ["X"] [wSubToken]).unsubscribedKeys = ["X"]
    ∧ (onTokensChange true ["X"] [wSubToken]).filterSubscriptions = 1 :=
  ⟨(subscribe_full_resubscribe ["X"] [wSubToken] (List.cons_ne_nil _ _)).1,
   (subscribe_full_resubscribe ["X"] [wSubToken] (List.cons_ne_nil _ _)).2.2.1⟩

end Dexcelerate
